import Mathlib

/-!
Verification development for the LoveMoney.help repository.

Shallow embedding of the three source files:
* `src/js/compatibility.js` — the `GameEmbedHandler` iframe load-lifecycle
  controller (states, retry with bounded count, load-timeout timer,
  cross-origin message handling) and the `CompatibilityTester` scorer;
* `src/js/guide.js` — the guide search (`searchContent`) and the upgrade-path
  simulator (`simulateUpgradePath`).

JS numbers are modelled as exact integers (`Int`/`Nat`); every arithmetic
operation performed by the embedded code stays integral at the modelled
inputs, so no floating-point rounding is lost.  DOM side effects (status
display, analytics, console, modals) are modelled as an explicit effect list;
a collaborator that throws is modelled by a `Collab` behaviour flag, and a
propagating exception by the `thrown` field of an `Outcome`.
-/

namespace LoveMoney

/-- Status kinds accepted by `loveMoneyApp.updateStatus` (spec section 6). -/
inductive StatusKind where
  | loading
  | success
  | errorK
  | warning
  | info
deriving DecidableEq, Repr

/-- Observable lifecycle phase of the controller, as rendered by the UI
helpers of `GameEmbedHandler`: `showLoadingState` renders the loading
overlay, `showRetryState` the retry overlay, `showGameError` the terminal
error display, and `onGameLoadSuccess` marks the game loaded. -/
inductive Phase where
  | Loading
  | Loaded
  | Retrying
  | Failed
deriving DecidableEq, Repr

/-- Side effects emitted by the handler, in program order. -/
inductive Effect where
  | trackEvent (category action : String) (label : Option String)
  | updateStatus (message : String) (kind : StatusKind)
  | consoleError (message : String)
  | consoleLog (message : String)
  | completionModal (endingText scoreText : String)
  | setSrc (src : String)
deriving DecidableEq, Repr

/-- Mutable state of `GameEmbedHandler` (compatibility.js lines 527-538),
plus bookkeeping for the load-timeout timer: `loadTimeout` is the stored
handle (`this.loadTimeout`), `activeTimers` the set of armed, unfired,
uncancelled load-timeout timers, `nextTimerId` a fresh-handle counter. -/
structure HandlerState where
  gameLoaded : Bool
  retryCount : Nat
  loadTimeout : Option Nat
  activeTimers : List Nat
  nextTimerId : Nat
  phase : Phase
deriving DecidableEq, Repr

/-- `this.maxRetries = 3` (compatibility.js line 533). -/
def maxRetries : Nat := 3

/-- `this.loadTimeoutDuration = 30000` (compatibility.js line 535). -/
def loadTimeoutDuration : Nat := 30000

/-- The allow-listed embed origin checked by `handleIframeMessage`. -/
def embedOrigin : String := "https://lovemoneygame.io"

/-- Behaviour of the `loveMoneyApp` collaborator: whether its two entry
points throw when called. -/
structure Collab where
  trackEventThrows : Bool
  updateStatusThrows : Bool
deriving DecidableEq, Repr

/-- The well-behaved collaborator: no call throws. -/
def honest : Collab := ⟨false, false⟩

/-- Result of running a handler: final state, effects in order, and whether
a collaborator exception is propagating out of the handler. -/
structure Outcome where
  state : HandlerState
  effects : List Effect
  thrown : Bool
deriving DecidableEq, Repr

/-- `clearLoadTimeout` (compatibility.js lines 590-595): cancel the stored
timer handle, if any, and null the field. -/
def clearLoadTimeout (s : HandlerState) : HandlerState :=
  match s.loadTimeout with
  | some h => { s with activeTimers := s.activeTimers.erase h, loadTimeout := none }
  | none => s

/-- `startLoadTimeout` (compatibility.js lines 581-588): clear any pending
timer, then arm a fresh one and store its handle. -/
def startLoadTimeout (s : HandlerState) : HandlerState :=
  let s := clearLoadTimeout s
  { s with loadTimeout := some s.nextTimerId,
           activeTimers := s.activeTimers.concat s.nextTimerId,
           nextTimerId := s.nextTimerId + 1 }

/-- A call to `loveMoneyApp.trackEvent`: effects produced and whether the
call threw. -/
def callTrackEvent (c : Collab) (category action : String) (label : Option String) :
    List Effect × Bool :=
  if c.trackEventThrows then ([], true)
  else ([Effect.trackEvent category action label], false)

/-- A call to `loveMoneyApp.updateStatus`. -/
def callUpdateStatus (c : Collab) (message : String) (kind : StatusKind) :
    List Effect × Bool :=
  if c.updateStatusThrows then ([], true)
  else ([Effect.updateStatus message kind], false)

/-- `showLoadingState` (compatibility.js lines 683-704): render the loading
overlay, then report status.  The overlay rendering precedes the
collaborator call, so the phase change survives a collaborator throw. -/
def showLoadingState (c : Collab) (s : HandlerState) : Outcome :=
  let s := { s with phase := Phase.Loading }
  let r := callUpdateStatus c "🔄 Loading game..." StatusKind.loading
  ⟨s, r.1, r.2⟩

/-- `showRetryState` (compatibility.js lines 706-722). -/
def showRetryState (c : Collab) (s : HandlerState) : Outcome :=
  let s := { s with phase := Phase.Retrying }
  let r := callUpdateStatus c
    ("🔄 Retrying... (" ++ toString s.retryCount ++ "/" ++ toString maxRetries ++ ")")
    StatusKind.loading
  ⟨s, r.1, r.2⟩

/-- `showGameError` (compatibility.js lines 724-752): render the terminal
error display, then report status. -/
def showGameError (c : Collab) (errorMessage : Option String) (s : HandlerState) : Outcome :=
  let s := { s with phase := Phase.Failed }
  let r := callUpdateStatus c "❌ Failed to load game" StatusKind.errorK
  ⟨s, r.1, r.2⟩

/-- `onGameLoadSuccess` (compatibility.js lines 627-648): guarded by
`if (this.gameLoaded) return`, then sets `gameLoaded`, resets `retryCount`,
hides the overlay, and notifies the collaborators. -/
def onGameLoadSuccess (c : Collab) (s : HandlerState) : Outcome :=
  if s.gameLoaded then ⟨s, [], false⟩
  else
    let s := { s with gameLoaded := true, retryCount := 0, phase := Phase.Loaded }
    let r1 := callTrackEvent c "Game" "load_success" none
    if r1.2 then ⟨s, r1.1, true⟩
    else
      let r2 := callUpdateStatus c "✅ Game loaded successfully!" StatusKind.success
      ⟨s, r1.1 ++ r2.1, r2.2⟩

/-- `retryLoad` (compatibility.js lines 665-681): increment `retryCount`,
log, render the retry overlay.  The deferred source reset and re-arming of
the load timeout run later (modelled by the `Ev.retrySettle` event). -/
def retryLoad (c : Collab) (s : HandlerState) : Outcome :=
  let s := { s with retryCount := s.retryCount + 1 }
  let e0 := [Effect.consoleLog
    ("Retrying game load (" ++ toString s.retryCount ++ "/" ++ toString maxRetries ++ ")")]
  let o := showRetryState c s
  ⟨o.state, e0 ++ o.effects, o.thrown⟩

/-- `onGameLoadError` (compatibility.js lines 650-663): log, retry while
`retryCount < maxRetries`, otherwise show the terminal error, then track
the error.  The collaborator call comes after the state transition. -/
def onGameLoadError (c : Collab) (errorMessage : Option String) (s : HandlerState) : Outcome :=
  let e0 := [Effect.consoleError ("Game load error: " ++ errorMessage.getD "undefined")]
  let o := if s.retryCount < maxRetries then retryLoad c s else showGameError c errorMessage s
  if o.thrown then ⟨o.state, e0 ++ o.effects, true⟩
  else
    let r := callTrackEvent c "Game" "load_error" errorMessage
    ⟨o.state, e0 ++ o.effects ++ r.1, r.2⟩

/-- `onIframeError` (compatibility.js lines 611-614). -/
def onIframeError (c : Collab) (s : HandlerState) : Outcome :=
  onGameLoadError c (some "Iframe failed to load") (clearLoadTimeout s)

/-- `onSrcChange` (compatibility.js lines 620-625). -/
def onSrcChange (c : Collab) (s : HandlerState) : Outcome :=
  let s := { s with gameLoaded := false, retryCount := 0 }
  let o := showLoadingState c s
  if o.thrown then ⟨o.state, o.effects, true⟩
  else ⟨startLoadTimeout o.state, o.effects, false⟩

/-- `forceReload` (compatibility.js lines 769-784).  The cache-busting
timestamp query parameter is abstracted as a fixed suffix. -/
def forceReload (c : Collab) (s : HandlerState) : Outcome :=
  let s := { s with retryCount := 0, gameLoaded := false }
  let o := showLoadingState c s
  if o.thrown then ⟨o.state, o.effects, true⟩
  else
    let s2 := startLoadTimeout o.state
    let eSrc := [Effect.setSrc "https://lovemoneygame.io/lovemoney.embed?t=timestamp"]
    let r := callTrackEvent c "Game" "force_reload" none
    ⟨s2, o.effects ++ eSrc ++ r.1, r.2⟩

/-- Inbound `postMessage` payload after the `JSON.parse` step of
`handleIframeMessage`: either a parsed object with its relevant fields
(absent fields are `none`, matching `undefined`), or a string payload on
which `JSON.parse` throws. -/
inductive Payload where
  | parsed (type : String) (message stage ending : Option String) (finalScore : Option Int)
  | unparseable
deriving DecidableEq, Repr

/-- An inbound message event: origin plus payload. -/
structure InMessage where
  origin : String
  payload : Payload
deriving DecidableEq, Repr

/-- `handleGameProgress` (compatibility.js lines 949-954). -/
def handleGameProgress (c : Collab) (stage : Option String) (s : HandlerState) : Outcome :=
  let r := callTrackEvent c "Game" "progress" stage
  ⟨s, r.1, r.2⟩

/-- `showGameComplete` (compatibility.js lines 966-1002): renders the
completion modal.  The template uses JS truthiness, `data.ending ||
'Unknown'` and `data.finalScore || 'N/A'`, so the empty string and the
score 0 fall back to the defaults. -/
def showGameComplete (ending : Option String) (finalScore : Option Int) (s : HandlerState) :
    Outcome :=
  let endingText := match ending with
    | some e => if e = "" then "Unknown" else e
    | none => "Unknown"
  let scoreText := match finalScore with
    | some n => if n = 0 then "N/A" else toString n
    | none => "N/A"
  ⟨s, [Effect.completionModal endingText scoreText], false⟩

/-- `handleGameComplete` (compatibility.js lines 956-964): track, then show
the completion modal. -/
def handleGameComplete (c : Collab) (ending : Option String) (finalScore : Option Int)
    (s : HandlerState) : Outcome :=
  let r := callTrackEvent c "Game" "complete" ending
  if r.2 then ⟨s, r.1, true⟩
  else
    let o := showGameComplete ending finalScore s
    ⟨o.state, r.1 ++ o.effects, o.thrown⟩

/-- `handleIframeMessage` (compatibility.js lines 919-947): exact origin
check first (silent drop on mismatch, before the try block), then parse and
dispatch on `data.type` inside a try/catch that swallows any exception and
logs it. -/
def handleIframeMessage (c : Collab) (m : InMessage) (s : HandlerState) : Outcome :=
  if m.origin ≠ embedOrigin then ⟨s, [], false⟩
  else
    let inner : Outcome :=
      match m.payload with
      | Payload.unparseable => ⟨s, [], true⟩
      | Payload.parsed t msg stage ending fs =>
        if t = "gameLoaded" then onGameLoadSuccess c s
        else if t = "gameError" then onGameLoadError c msg s
        else if t = "gameProgress" then handleGameProgress c stage s
        else if t = "gameComplete" then handleGameComplete c ending fs s
        else ⟨s, [Effect.consoleLog "Unknown message from game"], false⟩
    if inner.thrown then
      ⟨inner.state, inner.effects ++ [Effect.consoleLog "Error parsing message from game"], false⟩
    else inner

/-- Constructor state (compatibility.js lines 528-536), before `init`. -/
def mkState : HandlerState :=
  { gameLoaded := false, retryCount := 0, loadTimeout := none,
    activeTimers := [], nextTimerId := 0, phase := Phase.Loading }

/-- State after `init` ran with the iframe present: listeners installed and
`startLoadTimeout` called (compatibility.js lines 540-548). -/
def initState : HandlerState := startLoadTimeout mkState

/-- Lifecycle events delivered to the controller.  `loadNative` is the
iframe `load` event (which clears the timeout and schedules the settle
timer), `loadSettle` the 1-second settle callback reaching
`onGameLoadSuccess`, `timerFire h` the armed load-timeout firing,
`retrySettle` the completion of `retryLoad`'s deferred source reset
(which re-arms the load timeout). -/
inductive Ev where
  | loadNative
  | loadSettle
  | iframeError
  | timerFire (h : Nat)
  | srcChange
  | force
  | retrySettle
  | message (m : InMessage)
deriving DecidableEq, Repr

/-- Top-level dispatch of one event, with effects and exception escape.
For `timerFire` the timer must be armed; firing consumes it, and the
callback body guards on `!this.gameLoaded` (compatibility.js lines
583-587). -/
def dispatchEv (c : Collab) (s : HandlerState) (e : Ev) : Outcome :=
  match e with
  | Ev.loadNative => ⟨clearLoadTimeout s, [], false⟩
  | Ev.loadSettle => onGameLoadSuccess c s
  | Ev.iframeError => onIframeError c s
  | Ev.timerFire h =>
    if h ∈ s.activeTimers then
      let s := { s with activeTimers := s.activeTimers.erase h }
      if s.gameLoaded then ⟨s, [], false⟩
      else onGameLoadError c (some "Game loading timed out") s
    else ⟨s, [], false⟩
  | Ev.srcChange => onSrcChange c s
  | Ev.force => forceReload c s
  | Ev.retrySettle => ⟨startLoadTimeout s, [Effect.setSrc "https://lovemoneygame.io/lovemoney.embed"], false⟩
  | Ev.message m => handleIframeMessage c m s

/-- State reached after one event. -/
def applyEv (c : Collab) (s : HandlerState) (e : Ev) : HandlerState :=
  (dispatchEv c s e).state

/-- State reached after a sequence of events. -/
def applySeq (c : Collab) (s : HandlerState) (evs : List Ev) : HandlerState :=
  evs.foldl (applyEv c) s

/-- Controller states reachable from initialization under normal (honest
collaborator) operation. -/
def Reachable (s : HandlerState) : Prop :=
  ∃ evs : List Ev, s = applySeq honest initState evs

/-- Failure events: the iframe `error` event, the load timeout firing with
the game not loaded, and an embed-reported `gameError` message. -/
inductive FailEv where
  | iframeErr
  | timeoutFire
  | msgError (m : Option String)
deriving DecidableEq, Repr

/-- Deliver one failure event to the controller (honest collaborator). -/
def applyFail (s : HandlerState) (ev : FailEv) : HandlerState :=
  match ev with
  | FailEv.iframeErr => (onIframeError honest s).state
  | FailEv.timeoutFire =>
    if s.gameLoaded then s
    else (onGameLoadError honest (some "Game loading timed out") s).state
  | FailEv.msgError m =>
    (handleIframeMessage honest ⟨embedOrigin, Payload.parsed "gameError" m none none none⟩ s).state

/-- Deliver a sequence of failure events. -/
def applyFailSeq (s : HandlerState) (evs : List FailEv) : HandlerState :=
  evs.foldl applyFail s

/-- The load-timeout timer discipline: at most one armed timer, and any
armed timer is the one stored in `loadTimeout`. -/
def TimerInv (s : HandlerState) : Prop :=
  s.activeTimers.length ≤ 1 ∧ ∀ h ∈ s.activeTimers, s.loadTimeout = some h

/-- Number of success-kind status updates in an effect list. -/
def successStatusCount (l : List Effect) : Nat :=
  (l.filter fun e => match e with
    | Effect.updateStatus _ StatusKind.success => true
    | _ => false).length

/-- Number of completion-modal notifications in an effect list. -/
def completionCount (l : List Effect) : Nat :=
  (l.filter fun e => match e with
    | Effect.completionModal _ _ => true
    | _ => false).length

/-! ### CompatibilityTester.calculateCompatibilityScore (compatibility.js 280-307) -/

/-- The feature keys of the `weights` table. -/
inductive CompatFeature where
  | browser
  | iframe
  | webgl
  | localStorage
  | canvas
  | fullscreen
  | serviceWorker
deriving DecidableEq, Repr

/-- The `weights` table, in object-literal order (compatibility.js 281-289). -/
def compatWeights : List (CompatFeature × Nat) :=
  [(CompatFeature.browser, 30), (CompatFeature.iframe, 25), (CompatFeature.webgl, 15),
   (CompatFeature.localStorage, 10), (CompatFeature.canvas, 10),
   (CompatFeature.fullscreen, 5), (CompatFeature.serviceWorker, 5)]

/-- The `Object.entries(weights).forEach` loop: accumulates `(score,
maxScore)` over the table (compatibility.js 294-299). -/
def compatFold (supported : CompatFeature → Bool) : Nat × Nat :=
  compatWeights.foldl
    (fun p fw => (p.1 + (if supported fw.1 then fw.2 else 0), p.2 + fw.2)) (0, 0)

/-- `Math.round(a / b)` for nonnegative integer operands, `b > 0`:
round-half-up, computed as `⌊(2a + b) / 2b⌋`. -/
def jsRoundDiv (a b : Nat) : Nat := (2 * a + b) / (2 * b)

/-- `calculateCompatibilityScore` (compatibility.js 280-307): weighted
feature loop, then the browser compatibility bonus added on top (lines
302-304), then `Math.round((score / maxScore) * 100)`.  All values are
small integers and `maxScore = 100`, so the float expression equals the
exact rounded rational. -/
def calculateCompatibilityScore (supported : CompatFeature → Bool) : Nat :=
  let p := compatFold supported
  let score := p.1 + (if supported CompatFeature.browser then 30 else 0)
  jsRoundDiv (score * 100) p.2

/-! ### GuideController.simulateUpgradePath (guide.js 611-665) -/

/-- One entry of the fixed upgrade table. -/
structure Upgrade where
  name : String
  cost : Int
  earnings : Int
  moral : Int
deriving DecidableEq, Repr

/-- The fixed 7-entry `upgrades` table (guide.js 571-579). -/
def upgrades : List Upgrade :=
  [⟨"Basic Touch", 0, 1, 0⟩, ⟨"Pet", 100, 2, -5⟩, ⟨"Kiss", 500, 5, -10⟩,
   ⟨"Touch", 1500, 15, -20⟩, ⟨"Embrace", 3000, 30, -25⟩,
   ⟨"Caress", 6000, 60, -30⟩, ⟨"Special", 10000, 100, -40⟩]

/-- `upgrades[i]`; out-of-range access is modelled by a zero entry (the JS
code only indexes within bounds at the inputs considered). -/
def getUpgrade (i : Nat) : Upgrade := upgrades.getD i ⟨"", 0, 0, 0⟩

/-- `Math.ceil(a / b)` for integers with `b > 0`. -/
def ceilDiv (a b : Int) : Int := (a + b - 1) / b

/-- One step of the simulated path (guide.js 640-645). -/
structure PathStep where
  upgrade : String
  cost : Int
  moralImpact : Int
  newMoralScore : Int
deriving DecidableEq, Repr

/-- Result record of `simulateUpgradePath` (guide.js 657-664). -/
structure SimResult where
  success : Bool
  totalClicks : Int
  finalMoral : Int
  path : List PathStep
  estimatedTime : Int
  endingType : String
deriving DecidableEq, Repr

/-- `getEndingType` (guide.js 667-671). -/
def getEndingType (moralScore : Int) : String :=
  if moralScore ≥ 60 then "High Morality"
  else if moralScore ≥ 30 then "Medium Morality"
  else "Low Morality"

/-- The initial moral-penalty loop of `simulateUpgradePath` (guide.js
619-621): `for (i = 1; i <= currentUpgrade; i++) moralScore +=
upgrades[i].moral`, starting from 100. -/
def startMoral (currentUpgrade : Nat) : Int :=
  (List.range currentUpgrade).foldl (fun m i => m + (getUpgrade (i + 1)).moral) 100

/-- The `while (money < target && currentUpgrade <= maxUpgrade)` loop of
`simulateUpgradePath` (guide.js 623-655), fuel-indexed: `none` means the
fuel ran out before the loop exited.  Returns `(money, currentUpgrade,
totalClicks, moralScore, path)` at loop exit. -/
def simLoop (target : Int) (maxUpgrade : Nat) : Nat → Int → Nat → Int → Int →
    List PathStep → Option (Int × Nat × Int × Int × List PathStep)
  | 0, _, _, _, _, _ => none
  | fuel + 1, money, cur, clicks, moral, path =>
    if money < target ∧ cur ≤ maxUpgrade then
      let e := (getUpgrade cur).earnings
      if cur < maxUpgrade ∧ cur < upgrades.length - 1 then
        let nxt := getUpgrade (cur + 1)
        let moneyNeeded := nxt.cost - money
        if moneyNeeded > 0 then
          let cn := ceilDiv moneyNeeded e
          let money2 := money + cn * e
          let clicks2 := clicks + cn
          if money2 ≥ nxt.cost then
            simLoop target maxUpgrade fuel money2 (cur + 1) clicks2 (moral + nxt.moral)
              (path.concat ⟨nxt.name, nxt.cost, nxt.moral, moral + nxt.moral⟩)
          else
            simLoop target maxUpgrade fuel money2 cur clicks2 moral path
        else
          if money ≥ nxt.cost then
            simLoop target maxUpgrade fuel money (cur + 1) clicks (moral + nxt.moral)
              (path.concat ⟨nxt.name, nxt.cost, nxt.moral, moral + nxt.moral⟩)
          else
            simLoop target maxUpgrade fuel money cur clicks moral path
      else
        let remaining := target - money
        let fc := ceilDiv remaining e
        some (target, cur, clicks + fc, moral, path)
    else
      some (money, cur, clicks, moral, path)

/-- `Math.round(clicks / 10)` for `clicks ≥ 0` (guide.js 662). -/
def jsRoundDiv10 (clicks : Int) : Int := (clicks + 5) / 10

/-- `simulateUpgradePath` (guide.js 611-665), with the loop fuel set to
`maxUpgrade + 2`: the termination theorem shows this fuel always suffices,
so the JS while loop is total. -/
def simulateUpgradePath (target startMoney : Int) (startUpgrade maxUpgrade : Nat) :
    Option SimResult :=
  match simLoop target maxUpgrade (maxUpgrade + 2) startMoney startUpgrade 0
      (startMoral startUpgrade) [] with
  | none => none
  | some (money, _, clicks, moral, path) =>
    some ⟨money ≥ target, clicks, moral, path, jsRoundDiv10 clicks, getEndingType moral⟩

/-! ### GuideController.searchContent (guide.js 413-444) -/

/-- `needle.isPrefixOf`-based substring test on character lists. -/
def charsContain (needle : List Char) : List Char → Bool
  | [] => needle.isEmpty
  | c :: t => List.isPrefixOf needle (c :: t) || charsContain needle t

/-- `String.prototype.includes`. -/
def strIncludes (hay needle : String) : Bool := charsContain needle.toList hay.toList

/-- One entry of `this.searchIndex` (guide.js 48-53): section id, title,
lower-cased text content, extracted keywords. -/
structure SearchItem where
  id : String
  title : String
  content : String
  keywords : List String
deriving DecidableEq, Repr

/-- A search result: an index item paired with its accumulated score
(`{ ...item, score }`, guide.js 439). -/
structure ScoredItem where
  item : SearchItem
  score : Nat
deriving DecidableEq, Repr

/-- Score one index item against the query (guide.js 418-436): +10 for a
title substring match of the whole query, then per query word +5 for an
exact keyword, +3 for a title substring, +1 for a content substring. -/
def scoreItem (query : String) (queryWords : List String) (item : SearchItem) : Nat :=
  let s0 := if strIncludes item.title.toLower query then 10 else 0
  queryWords.foldl
    (fun acc w =>
      acc + (if item.keywords.contains w then 5 else 0)
          + (if strIncludes item.title.toLower w then 3 else 0)
          + (if strIncludes item.content w then 1 else 0)) s0

/-- `searchContent` (guide.js 413-444): split the query into words longer
than 2 characters, score every index item, keep strictly positive scores,
sort by descending score (JS `sort` is stable; the comparator is
`b.score - a.score`), and take the first 8. -/
def searchContent (searchIndex : List SearchItem) (query : String) : List ScoredItem :=
  let queryWords := (query.splitOn " ").filter (fun w => w.length > 2)
  let results := searchIndex.filterMap (fun item =>
    let sc := scoreItem query queryWords item
    if sc > 0 then some ⟨item, sc⟩ else none)
  (results.mergeSort (fun a b => decide (b.score ≤ a.score))).take 8

/-! ### Concrete scenario inputs used by individual claims -/

/-- The spec scenario message for game completion, with the spec's
capitalised `type` tag. -/
def specCompleteMessage : InMessage :=
  ⟨embedOrigin, Payload.parsed "GameComplete" none none (some "High Morality") (some 25000)⟩

/-- The same completion message with the tag the code actually matches. -/
def codeCompleteMessage : InMessage :=
  ⟨embedOrigin, Payload.parsed "gameComplete" none none (some "High Morality") (some 25000)⟩

/-- Scenario: first failure (iframe error) from the initialized state. -/
def failTwiceStep1 : Outcome := onIframeError honest initState

/-- Scenario: second failure (load timeout) after the first. -/
def failTwiceStep2 : Outcome :=
  onGameLoadError honest (some "Game loading timed out") failTwiceStep1.state

/-- Scenario: success signal after the two failures. -/
def failTwiceStep3 : Outcome := onGameLoadSuccess honest failTwiceStep2.state

/-! ## Theorems -/

/-- C2: a message whose origin is not the allow-listed embed origin leaves
the controller state unchanged and produces no side effects and no
exception, for every payload and every collaborator behaviour. -/
theorem foreign_origin_message_no_op (c : Collab) (m : InMessage) (s : HandlerState)
    (h : m.origin ≠ embedOrigin) : handleIframeMessage c m s = ⟨s, [], false⟩ := by
  simp [handleIframeMessage, h]

/-- C2 witness: a concrete foreign-origin message is dropped without any
state change or side effect. -/
theorem foreign_origin_message_no_op_witness :
    handleIframeMessage honest
      ⟨"https://evil.example", Payload.parsed "gameLoaded" none none none none⟩ initState
      = ⟨initState, [], false⟩ :=
  foreign_origin_message_no_op honest
    ⟨"https://evil.example", Payload.parsed "gameLoaded" none none none none⟩ initState
    (by decide)

/-- C3: a success signal received while already loaded is a no-op — the
state is unchanged and no status or analytics effect is emitted — and
consequently handling a success signal twice equals handling it once. -/
theorem load_success_idempotent :
    (∀ (c : Collab) (s : HandlerState), s.gameLoaded = true →
        onGameLoadSuccess c s = ⟨s, [], false⟩) ∧
    (∀ (c : Collab) (s : HandlerState),
        onGameLoadSuccess c (onGameLoadSuccess c s).state
          = ⟨(onGameLoadSuccess c s).state, [], false⟩) := by
  have hload : ∀ (c : Collab) (s : HandlerState), (onGameLoadSuccess c s).state.gameLoaded = true := by
    intro c s
    by_cases h : s.gameLoaded = true
    · simp [onGameLoadSuccess, h]
    · cases hc : c.trackEventThrows <;>
        simp [onGameLoadSuccess, callTrackEvent, callUpdateStatus, h, hc]
  have hdone : ∀ (c : Collab) (s : HandlerState), s.gameLoaded = true →
      onGameLoadSuccess c s = ⟨s, [], false⟩ := by
    intro c s h
    unfold onGameLoadSuccess
    simp [h]
  exact ⟨hdone, fun c s => hdone c _ (hload c s)⟩

/-- C3 witness: at a concrete already-loaded state, the success handler
returns the state unchanged with no effects. -/
theorem load_success_idempotent_witness :
    onGameLoadSuccess honest { mkState with gameLoaded := true }
      = ⟨{ mkState with gameLoaded := true }, [], false⟩ :=
  load_success_idempotent.1 honest { mkState with gameLoaded := true } rfl

/-- C4 counterexample: the spec scenario message, with its capitalised
`GameComplete` type tag, sent from the correct origin, falls into the
`default` branch of the switch: it only logs, leaves the state unchanged,
and produces zero completion notifications. -/
theorem capitalized_game_complete_ignored :
    handleIframeMessage honest specCompleteMessage initState
      = ⟨initState, [Effect.consoleLog "Unknown message from game"], false⟩ ∧
    completionCount (handleIframeMessage honest specCompleteMessage initState).effects = 0 := by
  constructor <;> decide

/-- C4 (amended): an inbound message from the allow-listed origin with
payload type `gameComplete` (the tag the code matches), ending
`High Morality` and final score 25000 triggers exactly one completion
notification in which those literal values are surfaced, and leaves the
controller state unchanged. -/
theorem game_complete_message_single_notification (s : HandlerState) :
    handleIframeMessage honest codeCompleteMessage s
      = ⟨s, [Effect.trackEvent "Game" "complete" (some "High Morality"),
             Effect.completionModal "High Morality" "25000"], false⟩ ∧
    completionCount (handleIframeMessage honest codeCompleteMessage s).effects = 1 := by
  have h : handleIframeMessage honest codeCompleteMessage s
      = ⟨s, [Effect.trackEvent "Game" "complete" (some "High Morality"),
             Effect.completionModal "High Morality" "25000"], false⟩ := by
    simp +decide [handleIframeMessage, codeCompleteMessage, embedOrigin, handleGameComplete,
      showGameComplete, callTrackEvent, honest]
  refine ⟨h, ?_⟩
  rw [h]
  rfl

/-- C5 counterexample: at the native load-settle lifecycle event, a
collaborator whose `trackEvent` throws lets the exception escape the
handler into the host page (there is no try/catch on this path). -/
theorem collaborator_fault_escapes_on_native_load :
    (dispatchEv ⟨true, false⟩ initState Ev.loadSettle).thrown = true := by
  decide

/-- The try/catch wrapper of `handleIframeMessage` never lets an exception
propagate: whatever the inner outcome, the resulting `thrown` flag is
false. -/
theorem catch_thrown_false (o : Outcome) (L : List Effect) :
    (if o.thrown = true then Outcome.mk o.state (o.effects ++ L) false else o).thrown
      = false := by
  by_cases h : o.thrown = true
  · simp [h]
  · simp [h]

/-- C5 (amended): collaborator faults raised while handling an inbound
message are caught inside `handleIframeMessage` and never escape, and the
success and error handlers perform their state transition before invoking
collaborators, so a throwing collaborator yields the same controller state
as a well-behaved one; only the uncaught propagation on native
load/error/timeout paths deviates from the claim. -/
theorem collaborator_fault_contained_amended :
    (∀ (c : Collab) (m : InMessage) (s : HandlerState),
        (handleIframeMessage c m s).thrown = false) ∧
    (∀ (c : Collab) (s : HandlerState),
        (onGameLoadSuccess c s).state = (onGameLoadSuccess honest s).state) ∧
    (∀ (c : Collab) (em : Option String) (s : HandlerState),
        (onGameLoadError c em s).state = (onGameLoadError honest em s).state) := by
  refine ⟨?_, ?_, ?_⟩
  · intro c m s
    unfold handleIframeMessage
    split
    · rfl
    · exact catch_thrown_false _ _
  · intro c s
    unfold onGameLoadSuccess callTrackEvent callUpdateStatus honest
    split
    · rfl
    · split <;> split <;> rfl
  · intro c em s
    unfold onGameLoadError retryLoad showRetryState showGameError callTrackEvent
      callUpdateStatus honest
    split <;> split <;> split <;> rfl

/-- `clearLoadTimeout` only touches the timer fields. -/
@[simp] theorem clearLoadTimeout_gameLoaded (s : HandlerState) :
    (clearLoadTimeout s).gameLoaded = s.gameLoaded := by
  rcases hlt : s.loadTimeout with _ | h0 <;> simp [clearLoadTimeout, hlt]

/-- `clearLoadTimeout` preserves the retry count. -/
@[simp] theorem clearLoadTimeout_retryCount (s : HandlerState) :
    (clearLoadTimeout s).retryCount = s.retryCount := by
  rcases hlt : s.loadTimeout with _ | h0 <;> simp [clearLoadTimeout, hlt]

/-- `clearLoadTimeout` preserves the phase. -/
@[simp] theorem clearLoadTimeout_phase (s : HandlerState) :
    (clearLoadTimeout s).phase = s.phase := by
  rcases hlt : s.loadTimeout with _ | h0 <;> simp [clearLoadTimeout, hlt]

/-- With the honest collaborator, the error handler transitions to a retry
(incrementing the count) below the bound and to the terminal error display
at the bound. -/
theorem onGameLoadError_honest_state (em : Option String) (s : HandlerState) :
    (onGameLoadError honest em s).state
      = (if s.retryCount < 3 then
          { s with retryCount := s.retryCount + 1, phase := Phase.Retrying }
         else { s with phase := Phase.Failed }) := by
  unfold onGameLoadError retryLoad showRetryState showGameError callTrackEvent
    callUpdateStatus honest maxRetries
  split_ifs <;> first | rfl | contradiction

/-- With the honest collaborator, the error handler never propagates an
exception. -/
theorem onGameLoadError_honest_thrown (em : Option String) (s : HandlerState) :
    (onGameLoadError honest em s).thrown = false := by
  unfold onGameLoadError retryLoad showRetryState showGameError callTrackEvent
    callUpdateStatus honest maxRetries
  split_ifs <;> first | rfl | contradiction

/-- A `gameError` message from the embed origin is routed to the error
handler. -/
theorem applyFail_msgError (m : Option String) (s : HandlerState) :
    applyFail s (FailEv.msgError m) = (onGameLoadError honest m s).state := by
  unfold applyFail handleIframeMessage
  simp +decide [embedOrigin, onGameLoadError_honest_thrown]

/-- Effect of one failure event on the observable controller fields, while
the game is not loaded: the count increments below 3 (a retry), otherwise
the phase becomes Failed. -/
theorem applyFail_char (s : HandlerState) (hg : s.gameLoaded = false) (ev : FailEv) :
    (applyFail s ev).gameLoaded = false ∧
    (applyFail s ev).retryCount
      = (if s.retryCount < 3 then s.retryCount + 1 else s.retryCount) ∧
    (applyFail s ev).phase
      = (if s.retryCount < 3 then Phase.Retrying else Phase.Failed) := by
  cases ev with
  | iframeErr =>
    unfold applyFail onIframeError
    rw [onGameLoadError_honest_state]
    simp only [clearLoadTimeout_retryCount, clearLoadTimeout_gameLoaded, clearLoadTimeout_phase]
    split_ifs <;> simp [hg]
  | timeoutFire =>
    unfold applyFail
    rw [if_neg (by simp [hg]), onGameLoadError_honest_state]
    split_ifs <;> simp [hg]
  | msgError m =>
    rw [applyFail_msgError, onGameLoadError_honest_state]
    split_ifs <;> simp [hg]

/-- Closed form for a whole failure sequence, generalized over a starting
state whose retry count is `min k 3`. -/
theorem applyFailSeq_char : ∀ (evs : List FailEv) (s : HandlerState) (k : Nat),
    s.gameLoaded = false → s.retryCount = min k 3 →
    (applyFailSeq s evs).gameLoaded = false ∧
    (applyFailSeq s evs).retryCount = min (k + evs.length) 3 ∧
    (applyFailSeq s evs).phase
      = (if evs.isEmpty then s.phase
         else if k + evs.length ≤ 3 then Phase.Retrying else Phase.Failed) := by
  intro evs
  induction evs with
  | nil =>
    intro s k hg hr
    exact ⟨hg, by simpa [applyFailSeq] using hr, by simp [applyFailSeq]⟩
  | cons ev evs ih =>
    intro s k hg hr
    have hstep := applyFail_char s hg ev
    have hg' : (applyFail s ev).gameLoaded = false := hstep.1
    have hr' : (applyFail s ev).retryCount = min (k + 1) 3 := by
      rw [hstep.2.1, hr]
      split_ifs <;> omega
    have hp' : (applyFail s ev).phase
        = (if k + 1 ≤ 3 then Phase.Retrying else Phase.Failed) := by
      rw [hstep.2.2, hr]
      split_ifs <;> first | rfl | omega
    have hseq : applyFailSeq s (ev :: evs) = applyFailSeq (applyFail s ev) evs := rfl
    have hrec := ih (applyFail s ev) (k + 1) hg' hr'
    rw [hseq]
    refine ⟨hrec.1, ?_, ?_⟩
    · rw [hrec.2.1]
      congr 1
      simp [List.length_cons]
      omega
    · rw [hrec.2.2]
      cases evs with
      | nil => simp [applyFailSeq, hp']
      | cons e2 t2 =>
        simp only [List.isEmpty_cons, List.length_cons, if_false, Bool.false_eq_true]
        congr 2
        omega

/-- C1: for every sequence of error/timeout failure events delivered to the
freshly initialized controller, the retry count climbs as `min n 3`, never
exceeding `maxRetries = 3`; the terminal Failed (error display) state is
reached exactly when a 4th failure occurs after the 3 retries, and each of
the first three failures produces a retry, not Failed. -/
theorem retry_count_bounded_and_failed_on_fourth (evs : List FailEv) :
    (applyFailSeq initState evs).retryCount = min evs.length maxRetries ∧
    (applyFailSeq initState evs).retryCount ≤ maxRetries ∧
    ((applyFailSeq initState evs).phase = Phase.Failed ↔ 4 ≤ evs.length) ∧
    (1 ≤ evs.length → evs.length ≤ 3 →
      (applyFailSeq initState evs).phase = Phase.Retrying) := by
  have h := applyFailSeq_char evs initState 0 rfl rfl
  have hlen : (0 : Nat) + evs.length = evs.length := by omega
  refine ⟨by rw [h.2.1, hlen]; rfl, ?_, ?_, ?_⟩
  · rw [h.2.1]
    simp only [maxRetries]
    omega
  · rw [h.2.2]
    cases evs with
    | nil =>
      have hnil : ([] : List FailEv).isEmpty = true := rfl
      rw [if_pos hnil]
      exact ⟨fun hc => absurd hc (by decide), fun h4 => by simp at h4⟩
    | cons e t =>
      rw [if_neg (by simp)]
      by_cases hle : 0 + (e :: t).length ≤ 3
      · rw [if_pos hle]
        simp only [List.length_cons] at hle ⊢
        exact ⟨fun hc => absurd hc (by decide), fun h4 => absurd h4 (by omega)⟩
      · rw [if_neg hle]
        simp only [List.length_cons] at hle ⊢
        exact ⟨fun _ => by omega, fun _ => trivial⟩
  · intro h1 h3
    rw [h.2.2]
    cases evs with
    | nil => simp at h1
    | cons e t =>
      rw [if_neg (by simp), if_pos (by omega)]

/-- C1 witness: after three concrete failures the count is 3 and the
controller is retrying, not failed. -/
theorem retry_count_bounded_and_failed_on_fourth_witness :
    (applyFailSeq initState [FailEv.iframeErr, FailEv.timeoutFire, FailEv.msgError none]).phase
      = Phase.Retrying :=
  (retry_count_bounded_and_failed_on_fourth
    [FailEv.iframeErr, FailEv.timeoutFire, FailEv.msgError none]).2.2.2
    (by decide) (by decide)

/-- Under the timer invariant, cancelling leaves no armed timer at all. -/
theorem clearLoadTimeout_of_inv {s : HandlerState} (h : TimerInv s) :
    (clearLoadTimeout s).activeTimers = [] ∧ (clearLoadTimeout s).loadTimeout = none := by
  obtain ⟨hlen, hmem⟩ := h
  unfold clearLoadTimeout
  rcases hlt : s.loadTimeout with _ | h0
  · have : s.activeTimers = [] := by
      apply List.eq_nil_iff_forall_not_mem.mpr
      intro x hx
      have := hmem x hx
      rw [hlt] at this
      cases this
    simp [this, hlt]
  · rcases hl : s.activeTimers with _ | ⟨a, _ | ⟨b, t⟩⟩
    · simp
    · have ha := hmem a (by rw [hl]; exact List.mem_singleton_self a)
      rw [hlt] at ha
      have haa : h0 = a := by injection ha
      subst haa
      simp [hl]
    · rw [hl] at hlen
      simp at hlen
  -- the erase case closes by computing the erase of the singleton

/-- Clearing preserves the timer invariant. -/
theorem timerInv_clearLoadTimeout {s : HandlerState} (h : TimerInv s) :
    TimerInv (clearLoadTimeout s) := by
  obtain ⟨h1, h2⟩ := clearLoadTimeout_of_inv h
  exact ⟨by rw [h1]; simp, by rw [h1]; intro x hx; cases hx⟩

/-- Arming via `startLoadTimeout` re-establishes the timer invariant: the
pending timer is cancelled before the new one is armed, so exactly one
timer is armed afterwards. -/
theorem timerInv_startLoadTimeout {s : HandlerState} (h : TimerInv s) :
    TimerInv (startLoadTimeout s) := by
  obtain ⟨h1, h2⟩ := clearLoadTimeout_of_inv h
  unfold startLoadTimeout
  refine ⟨?_, ?_⟩
  · simp [h1]
  · intro x hx
    simp [h1] at hx
    simp [hx]

/-- Removing a fired timer handle preserves the invariant. -/
theorem timerInv_erase {s : HandlerState} (h : TimerInv s) (x : Nat) :
    TimerInv { s with activeTimers := s.activeTimers.erase x } := by
  refine ⟨?_, ?_⟩
  · exact le_trans (List.Sublist.length_le (List.erase_sublist x s.activeTimers)) h.1
  · intro h0 hm
    exact h.2 h0 (List.mem_of_mem_erase hm)

/-- States with identical timer fields share the invariant. -/
theorem timerInv_congr {s t : HandlerState} (h : TimerInv s)
    (ha : t.activeTimers = s.activeTimers) (hl : t.loadTimeout = s.loadTimeout) :
    TimerInv t := by
  refine ⟨by rw [ha]; exact h.1, ?_⟩
  intro h0 hm
  rw [ha] at hm
  rw [hl]
  exact h.2 h0 hm

/-- The success handler does not touch the timer fields. -/
theorem timers_onGameLoadSuccess (c : Collab) (s : HandlerState) :
    (onGameLoadSuccess c s).state.activeTimers = s.activeTimers ∧
    (onGameLoadSuccess c s).state.loadTimeout = s.loadTimeout := by
  unfold onGameLoadSuccess callTrackEvent callUpdateStatus
  split
  · exact ⟨rfl, rfl⟩
  · split_ifs <;> exact ⟨rfl, rfl⟩

/-- The error handler does not touch the timer fields. -/
theorem timers_onGameLoadError (c : Collab) (em : Option String) (s : HandlerState) :
    (onGameLoadError c em s).state.activeTimers = s.activeTimers ∧
    (onGameLoadError c em s).state.loadTimeout = s.loadTimeout := by
  unfold onGameLoadError retryLoad showRetryState showGameError callTrackEvent callUpdateStatus
  split_ifs <;> exact ⟨rfl, rfl⟩

/-- The message handler does not touch the timer fields: every dispatched
case only updates non-timer state or leaves the state alone. -/
theorem timers_handleIframeMessage (c : Collab) (m : InMessage) (s : HandlerState) :
    (handleIframeMessage c m s).state.activeTimers = s.activeTimers ∧
    (handleIframeMessage c m s).state.loadTimeout = s.loadTimeout := by
  unfold handleIframeMessage handleGameProgress handleGameComplete showGameComplete
  split
  · exact ⟨rfl, rfl⟩
  · rcases m with ⟨o, p⟩
    rcases p with ⟨t, msg, stage, ending, fs⟩ | _
    · dsimp only
      by_cases h1 : t = "gameLoaded"
      · have hs := timers_onGameLoadSuccess c s
        rw [if_pos h1]
        split_ifs <;> exact hs
      · by_cases h2 : t = "gameError"
        · have hs := timers_onGameLoadError c msg s
          rw [if_neg h1, if_pos h2]
          split_ifs <;> exact hs
        · rw [if_neg h1, if_neg h2]
          unfold callTrackEvent
          split_ifs <;> exact ⟨rfl, rfl⟩
    · dsimp only
      split_ifs <;> exact ⟨rfl, rfl⟩

/-- One-step preservation: every lifecycle event preserves the timer
invariant, because every operation that arms a new bounded wait goes
through `startLoadTimeout`, which cancels the pending timer first. -/
theorem timerInv_applyEv (c : Collab) (s : HandlerState) (e : Ev) (h : TimerInv s) :
    TimerInv (applyEv c s e) := by
  cases e with
  | loadNative => exact timerInv_clearLoadTimeout h
  | loadSettle =>
    have ht := timers_onGameLoadSuccess c s
    exact timerInv_congr h ht.1 ht.2
  | iframeError =>
    have hc := timerInv_clearLoadTimeout h
    have ht := timers_onGameLoadError c (some "Iframe failed to load") (clearLoadTimeout s)
    exact timerInv_congr hc ht.1 ht.2
  | timerFire h0 =>
    unfold applyEv dispatchEv
    dsimp only
    by_cases hm : h0 ∈ s.activeTimers
    · rw [if_pos hm]
      have he := timerInv_erase h h0
      by_cases hg : s.gameLoaded = true
      · rw [if_pos hg]
        exact he
      · rw [if_neg hg]
        have ht := timers_onGameLoadError c (some "Game loading timed out")
          { s with activeTimers := s.activeTimers.erase h0 }
        exact timerInv_congr he ht.1 ht.2
    · rw [if_neg hm]
      exact h
  | srcChange =>
    unfold applyEv dispatchEv onSrcChange showLoadingState callUpdateStatus
    dsimp only
    have h2 : TimerInv { s with gameLoaded := false, retryCount := 0, phase := Phase.Loading } :=
      timerInv_congr h rfl rfl
    cases hc : c.updateStatusThrows
    · exact timerInv_startLoadTimeout h2
    · exact h2
  | force =>
    unfold applyEv dispatchEv forceReload showLoadingState callUpdateStatus callTrackEvent
    dsimp only
    have h2 : TimerInv { s with retryCount := 0, gameLoaded := false, phase := Phase.Loading } :=
      timerInv_congr h rfl rfl
    cases hc : c.updateStatusThrows
    · exact timerInv_startLoadTimeout h2
    · exact h2
  | retrySettle => exact timerInv_startLoadTimeout h
  | message m =>
    have ht := timers_handleIframeMessage c m s
    exact timerInv_congr h ht.1 ht.2

/-- The invariant propagates along any event sequence. -/
theorem timerInv_applySeq (c : Collab) : ∀ (evs : List Ev) (s : HandlerState),
    TimerInv s → TimerInv (applySeq c s evs) := by
  intro evs
  induction evs with
  | nil => intro s h; exact h
  | cons e t ih => intro s h; exact ih (applyEv c s e) (timerInv_applyEv c s e h)

/-- C6: in every reachable controller state there is at most one active
load-timeout timer; every operation that arms a new bounded wait
(initialization, retry completion, source change, force reload) cancels
any pending timer before arming the new one. -/
theorem at_most_one_active_timer (s : HandlerState) (h : Reachable s) :
    s.activeTimers.length ≤ 1 := by
  obtain ⟨evs, rfl⟩ := h
  have hinit : TimerInv initState := by
    constructor
    · decide
    · intro h0 hm
      have : h0 = 0 := by
        have : initState.activeTimers = [0] := by decide
        rw [this] at hm
        simpa using hm
      simp [this]
      decide
  exact (timerInv_applySeq honest evs initState hinit).1

/-- C6 witness: the freshly initialized state is reachable and satisfies
the one-timer bound. -/
theorem at_most_one_active_timer_witness : initState.activeTimers.length ≤ 1 :=
  at_most_one_active_timer initState ⟨[], rfl⟩

/-- C7: after the embed fails twice (an iframe error, then a load timeout)
and then succeeds, the retry count observed at the moment of success is 2,
the final state is Loaded with the game marked loaded, and exactly one
success status update was emitted across the whole scenario. -/
theorem two_failures_then_success_scenario :
    failTwiceStep2.state.retryCount = 2 ∧
    failTwiceStep3.state.phase = Phase.Loaded ∧
    failTwiceStep3.state.gameLoaded = true ∧
    successStatusCount (failTwiceStep1.effects ++ failTwiceStep2.effects
      ++ failTwiceStep3.effects) = 1 := by
  decide

/-- Rounding `a * 100` against the divisor 100 is exact. -/
theorem jsRoundDiv_cancel (a : Nat) : jsRoundDiv (a * 100) 100 = a := by
  unfold jsRoundDiv
  omega

/-- C8: the compatibility scorer counts the 30-point browser weight twice —
once in the weighted loop and once as a bonus — while `maxScore` stays 100,
so with the browser and all weighted features supported it returns 130, a
percentage above 100. -/
theorem compat_score_browser_double_count :
    calculateCompatibilityScore (fun _ => true) = 130 ∧
    100 < calculateCompatibilityScore (fun _ => true) ∧
    (∀ supported : CompatFeature → Bool, (compatFold supported).2 = 100) ∧
    (∀ supported : CompatFeature → Bool, supported CompatFeature.browser = true →
        calculateCompatibilityScore supported = (compatFold supported).1 + 30) := by
  have hmax : ∀ supported : CompatFeature → Bool, (compatFold supported).2 = 100 := by
    intro supported
    rfl
  have hdouble : ∀ supported : CompatFeature → Bool, supported CompatFeature.browser = true →
      calculateCompatibilityScore supported = (compatFold supported).1 + 30 := by
    intro supported h
    simp only [calculateCompatibilityScore, h, if_true, hmax]
    exact jsRoundDiv_cancel _
  refine ⟨by decide, by decide, hmax, hdouble⟩

/-- C8 witness: with everything supported, the returned score equals the
weighted loop score plus the 30-point browser bonus again. -/
theorem compat_score_browser_double_count_witness :
    calculateCompatibilityScore (fun _ => true) = (compatFold (fun _ => true)).1 + 30 :=
  compat_score_browser_double_count.2.2.2 (fun _ => true) rfl

/-- Every entry of the fixed upgrade table has strictly positive earnings. -/
theorem earnings_pos : ∀ i, i < 7 → 0 < (getUpgrade i).earnings := by decide

/-- `Math.ceil(a / b) * b` covers `a` when the divisor is positive: the
clicks computed by the simulator always buy at least the needed money. -/
theorem le_ceilDiv_mul (a b : Int) (hb : 0 < b) : a ≤ ceilDiv a b * b := by
  have h := Int.ediv_add_emod (a + b - 1) b
  have h1 := Int.emod_nonneg (a + b - 1) (by omega : b ≠ 0)
  have h2 := Int.emod_lt_of_pos (a + b - 1) hb
  unfold ceilDiv
  rw [mul_comm]
  linarith [h, h1, h2]

/-- Fuel `maxUpgrade + 2 - cur` always suffices for the simulation loop:
every iteration either strictly increases `currentUpgrade` (purchases
always reach the next cost because earnings are positive) or exits. -/
theorem simLoop_isSome (target : Int) (maxU : Nat) :
    ∀ (fuel : Nat) (money : Int) (cur : Nat) (clicks moral : Int) (path : List PathStep),
      maxU < 7 → cur ≤ maxU + 1 → maxU + 2 ≤ fuel + cur →
      (simLoop target maxU fuel money cur clicks moral path).isSome = true := by
  intro fuel
  induction fuel with
  | zero =>
    intro money cur clicks moral path h7 hcur hfuel
    exact absurd hfuel (by omega)
  | succ fuel ih =>
    intro money cur clicks moral path h7 hcur hfuel
    simp only [simLoop]
    by_cases hloop : money < target ∧ cur ≤ maxU
    · rw [if_pos hloop]
      by_cases hA : cur < maxU ∧ cur < upgrades.length - 1
      · rw [if_pos hA]
        have hep : 0 < (getUpgrade cur).earnings := earnings_pos cur (by omega)
        by_cases hmn : (getUpgrade (cur + 1)).cost - money > 0
        · rw [if_pos hmn]
          have hcover := le_ceilDiv_mul ((getUpgrade (cur + 1)).cost - money)
            (getUpgrade cur).earnings hep
          rw [if_pos (by omega :
            money + ceilDiv ((getUpgrade (cur + 1)).cost - money) (getUpgrade cur).earnings
              * (getUpgrade cur).earnings ≥ (getUpgrade (cur + 1)).cost)]
          exact ih _ (cur + 1) _ _ _ h7 (by omega) (by omega)
        · rw [if_neg hmn]
          rw [if_pos (by omega : money ≥ (getUpgrade (cur + 1)).cost)]
          exact ih _ (cur + 1) _ _ _ h7 (by omega) (by omega)
      · rw [if_neg hA]
        rfl
    · rw [if_neg hloop]
      rfl

/-- C9: `simulateUpgradePath` terminates for every money target, every
starting money, and every in-range pair of start/max upgrade indices over
the fixed 7-entry table: the fuelled embedding of its while loop always
returns a result, because each iteration strictly increases the current
upgrade (bounded by `maxUpgrade`) or breaks after the final-clicks
computation. -/
theorem simulateUpgradePath_total (target startMoney : Int) (startUpgrade maxUpgrade : Nat)
    (hle : startUpgrade ≤ maxUpgrade) (h7 : maxUpgrade < 7) :
    (simulateUpgradePath target startMoney startUpgrade maxUpgrade).isSome = true := by
  unfold simulateUpgradePath
  have h := simLoop_isSome target maxUpgrade (maxUpgrade + 2) startMoney startUpgrade 0
    (startMoral startUpgrade) [] h7 (by omega) (by omega)
  rcases hopt : simLoop target maxUpgrade (maxUpgrade + 2) startMoney startUpgrade 0
      (startMoral startUpgrade) [] with _ | r
  · rw [hopt] at h
    simp at h
  · rcases r with ⟨money, cur, clicks, moral, path⟩
    rfl

/-- C9 witness: a concrete in-range run of the simulator returns a
result. -/
theorem simulateUpgradePath_total_witness :
    (simulateUpgradePath 1000000 0 0 6).isSome = true :=
  simulateUpgradePath_total 1000000 0 0 6 (by decide) (by decide)

/-- C10: for every search index and every query string, `searchContent`
returns at most 8 results, every returned result has a strictly positive
score, and the results are ordered by non-increasing score. -/
theorem searchContent_bounded_positive_sorted (searchIndex : List SearchItem) (query : String) :
    (searchContent searchIndex query).length ≤ 8 ∧
    (∀ r ∈ searchContent searchIndex query, 0 < r.score) ∧
    List.Pairwise (fun a b => b.score ≤ a.score) (searchContent searchIndex query) := by
  unfold searchContent
  refine ⟨List.length_take_le 8 _, ?_, ?_⟩
  · intro r hr
    have h2 := List.mem_of_mem_take hr
    have hperm := List.mergeSort_perm
      (searchIndex.filterMap fun item =>
        let sc := scoreItem query ((query.splitOn " ").filter (fun w => w.length > 2)) item
        if sc > 0 then some ⟨item, sc⟩ else none)
      (fun a b : ScoredItem => decide (b.score ≤ a.score))
    have h1 := hperm.mem_iff.mp h2
    rw [List.mem_filterMap] at h1
    obtain ⟨item, hitem, heq⟩ := h1
    dsimp only at heq
    by_cases hsc :
        scoreItem query ((query.splitOn " ").filter (fun w => w.length > 2)) item > 0
    · rw [if_pos hsc] at heq
      cases heq
      exact hsc
    · rw [if_neg hsc] at heq
      cases heq
  · have htrans : ∀ (a b c : ScoredItem),
        (fun a b : ScoredItem => decide (b.score ≤ a.score)) a b = true →
        (fun a b : ScoredItem => decide (b.score ≤ a.score)) b c = true →
        (fun a b : ScoredItem => decide (b.score ≤ a.score)) a c = true := by
      intro a b c hab hbc
      simp only [decide_eq_true_eq] at hab hbc ⊢
      omega
    have htotal : ∀ (a b : ScoredItem),
        ((fun a b : ScoredItem => decide (b.score ≤ a.score)) a b
          || (fun a b : ScoredItem => decide (b.score ≤ a.score)) b a) = true := by
      intro a b
      simp only [Bool.or_eq_true, decide_eq_true_eq]
      omega
    have hs := List.sorted_mergeSort htrans htotal
      (searchIndex.filterMap fun item =>
        let sc := scoreItem query ((query.splitOn " ").filter (fun w => w.length > 2)) item
        if sc > 0 then some ⟨item, sc⟩ else none)
    have hp : List.Pairwise (fun a b : ScoredItem => b.score ≤ a.score)
        ((searchIndex.filterMap fun item =>
          let sc := scoreItem query ((query.splitOn " ").filter (fun w => w.length > 2)) item
          if sc > 0 then some ⟨item, sc⟩ else none).mergeSort
            (fun a b => decide (b.score ≤ a.score))) :=
      hs.imp (fun h => by simpa using h)
    exact List.Pairwise.sublist (List.take_sublist 8 _) hp

end LoveMoney
